import Mathlib

/-!
Verification of the HTTP request execution layer of a Google Search Console
SDK client (file `client.py`, method `GSCClient._request`), together with its
error taxonomy (file `api/_exceptions.py`).

The embedding is shallow: the retry loop is a recursive Lean function over the
list of scripted transport responses (one `Response` per attempt), returning
the final outcome together with the trace of sleeps and of sent request
descriptors.  The two external primitives the loop calls on response data
are part of the response model: JSON parsing by the `requests` library is a
`jsonBody : Option Json` field (`none` when `resp.json()` raises), and the
CPython builtin `float` applied to the `Retry-After` header is a
`retryAfter : Option FloatOfStr` field carrying its result.  The builtin
`time.sleep`, whose uncaught exceptions end a call, is modelled by
`pySleep`/`sleepException`.
-/

/-- JSON values as produced by Python json parsing. Numbers are modelled as
integers; no property below depends on non-integral JSON numbers. -/
inductive Json where
  | null : Json
  | bool : Bool → Json
  | num : Int → Json
  | str : String → Json
  | arr : List Json → Json
  | obj : List (String × Json) → Json

/-- Python truthiness of a JSON value: None, False, 0, empty string, empty
list and empty dict are falsy, everything else truthy. -/
def pyTruthy : Json → Bool
  | Json.null => false
  | Json.bool b => b
  | Json.num n => n != 0
  | Json.str s => s != ""
  | Json.arr xs => !xs.isEmpty
  | Json.obj kvs => !kvs.isEmpty

/-- Python `a or b` where `a` is an optional lookup result: `None` and falsy
values fall through to `b`. -/
def pyOr (a : Option Json) (b : Json) : Json :=
  match a with
  | some v => if pyTruthy v then v else b
  | none => b

/-- Python `dict.get(k)` on the association list of a JSON object. -/
def jsonGet (kvs : List (String × Json)) (k : String) : Option Json :=
  match kvs.find? (fun p => p.1 == k) with
  | some p => some p.2
  | none => none

/-- A CPython float value: a finite value (modelled as an exact rational),
a signed infinity, or NaN. -/
inductive PyFloat where
  | finite : Rat → PyFloat
  | posInf : PyFloat
  | negInf : PyFloat
  | nan : PyFloat
deriving DecidableEq

/-- Result of the CPython builtin `float` applied to a string: either a
float value (`float` accepts signed decimals, exponents such as `1e3`,
underscore-grouped digits, and the spellings of infinity and NaN), or the
ValueError it raises on a non-numeric string such as `soon`.  Like the JSON
parse of the body, the conversion is performed by an external primitive, so
its result on the `Retry-After` header is part of the response model rather
than reimplemented. -/
inductive FloatOfStr where
  | ok : PyFloat → FloatOfStr
  | raises : FloatOfStr
deriving DecidableEq

/-- One HTTP response as seen by `_request`: the status code, the
`Retry-After` header composed with the `float` conversion of line 129
(`none` when the header is absent, `some (ok v)` when it is present and
`float` evaluates it to `v`, `some raises` when it is present and `float`
raises ValueError), the raw text `resp.text` (nonempty exactly when
`resp.content` is truthy), and the result of `resp.json()` (`none` when the
body is not parseable JSON, in which case `resp.json()` raises). -/
structure Response where
  status : Nat
  retryAfter : Option FloatOfStr
  text : String
  jsonBody : Option Json

/-- The request descriptor sent on every attempt: `method`, `url` and the
optional JSON body, exactly the three data arguments of
`self._session.request(method, url, json=json_body, timeout=...)`. -/
structure RequestDescriptor where
  method : String
  url : String
  jsonBody : Option Json

/-- Error-body extraction of `_request` (the `try: err = resp.json() ...`
block).  Faithful to the Python: when `resp.json()` raises, or `err` is not a
dict, or `err["error"]` exists but is not a dict (so that `.get` raises an
AttributeError inside the `try`), the handler falls back to
`(resp.text, None)`.  Otherwise the message is the first truthy of
`err["error"]["message"]`, `err["message"]`, `resp.text`, and the reason is
`err["error"]["errors"][0]["reason"]` when that path exists through a
truthy list whose first element is a dict. -/
def extractError (r : Response) : Json × Option Json :=
  match r.jsonBody with
  | none => (Json.str r.text, none)
  | some err =>
    match err with
    | Json.obj kvs =>
      let errField := jsonGet kvs "error"
      match errField.getD (Json.obj []) with
      | Json.obj ekvs =>
        let message := pyOr (jsonGet ekvs "message")
          (pyOr (jsonGet kvs "message") (Json.str r.text))
        let reason :=
          match errField with
          | some (Json.obj ekvs2) =>
            match pyOr (jsonGet ekvs2 "errors") (Json.arr []) with
            | Json.arr (first :: _) =>
              match first with
              | Json.obj fkvs => jsonGet fkvs "reason"
              | _ => none
            | _ => none
          | _ => none
        (message, reason)
      | _ => (Json.str r.text, none)
    | _ => (Json.str r.text, none)

mutual

/-- Python repr of a JSON-derived value, used by str() for containers: None,
True, False, decimal integers, single-quoted strings, bracketed lists and
braced dicts.  The escaping CPython applies inside a quoted string
(backslashes, quotes, control characters) and its quote-choice rule are
outside the model, as are float-typed JSON numbers. -/
def pyRepr : Json → String
  | Json.null => "None"
  | Json.bool true => "True"
  | Json.bool false => "False"
  | Json.num n => toString n
  | Json.str s => "\x27" ++ s ++ "\x27"
  | Json.arr xs => "[" ++ pyReprList xs ++ "]"
  | Json.obj kvs => "\x7b" ++ pyReprPairs kvs ++ "\x7d"

/-- Comma-separated reprs of the elements of a list. -/
def pyReprList : List Json → String
  | [] => ""
  | [x] => pyRepr x
  | x :: rest => pyRepr x ++ ", " ++ pyReprList rest

/-- Comma-separated `key: value` reprs of the entries of a dict. -/
def pyReprPairs : List (String × Json) → String
  | [] => ""
  | [(k, v)] => "\x27" ++ k ++ "\x27: " ++ pyRepr v
  | (k, v) :: rest => "\x27" ++ k ++ "\x27: " ++ pyRepr v ++ ", " ++ pyReprPairs rest

end

/-- Model of Python str() on a JSON-derived value, as interpolated by the
f-string of `client.py` line 125: a str formats as itself (the only case the
theorems below evaluate), every other value formats as its repr. -/
def pyStr (j : Json) : String :=
  match j with
  | Json.str s => s
  | j => pyRepr j

/-- Python `min(a, b)` on the backoff floats. -/
def pyMin (a b : Rat) : Rat :=
  if a ≤ b then a else b

/-- The `max_backoff = 16.0` constant of `_request`. -/
def maxBackoff : Rat := 16

/-- The largest number of seconds `time.sleep` accepts: its argument is
converted to a signed 64-bit count of nanoseconds, so values beyond
`(2^63 - 1) / 10^9` seconds raise OverflowError.  The floating-point
rounding at the exact threshold is outside the model. -/
def sleepBound : Rat := ⟨9223372036854775807, 1000000000, by decide, by decide⟩

/-- Model of `time.sleep` applied to a float, as observed on CPython 3.11:
returns the slept duration for a non-negative representable finite value,
and `none` when `time.sleep` raises without sleeping — OverflowError when
the value (infinite or finite) does not fit the 64-bit nanosecond range,
ValueError for NaN and for a negative representable value. -/
def pySleep : PyFloat → Option Rat
  | PyFloat.finite q => if 0 ≤ q ∧ q ≤ sleepBound then some q else none
  | _ => none

/-- Outcomes of one `_request` call.  The four typed errors mirror
`api/_exceptions.py`: `AuthError` is raised as
`AuthError(f"Unauthorized: {message}")` and carries only that formatted
string (no status or reason attribute), while `RateLimitError`,
`RetryableError` and `ApiError` carry `(status, message, reason)`.
`jsonDecodeError` is the uncaught exception of `resp.json()` on a 2xx body,
`valueError` an uncaught ValueError (from `float()` on a non-numeric
`Retry-After` header, or from `time.sleep` on a negative or NaN duration),
`overflowError` the uncaught OverflowError of `time.sleep` on a duration
outside its range, and `transportExhausted` the artifact of running out of
scripted responses. -/
inductive Outcome where
  | success : Json → Outcome
  | authError : String → Outcome
  | rateLimitError : Nat → Json → Option Json → Outcome
  | retryableError : Nat → Json → Option Json → Outcome
  | apiError : Nat → Json → Option Json → Outcome
  | jsonDecodeError : Outcome
  | valueError : Outcome
  | overflowError : Outcome
  | transportExhausted : Outcome

/-- The exception `time.sleep` raises on a duration it rejects, as observed
on CPython 3.11: the conversion to 64-bit nanoseconds runs first, so any
value outside that range (either infinity, or a finite value beyond the
bound in either direction) raises OverflowError; NaN and representable
negative values raise ValueError. -/
def sleepException : PyFloat → Outcome
  | PyFloat.finite q =>
    if q < -sleepBound ∨ sleepBound < q then Outcome.overflowError
    else Outcome.valueError
  | PyFloat.nan => Outcome.valueError
  | _ => Outcome.overflowError

/-- Result of one loop iteration: stop with an outcome, or hand the given
duration to `time.sleep` and go round again. -/
inductive StepResult where
  | done : Outcome → StepResult
  | retry : PyFloat → StepResult

/-- The body of the `while True` loop of `_request`, for the response `r`
received on attempt number `attempts` (already incremented, so the first
attempt has `attempts = 1`) with current backoff `backoff`.  Transcribed
branch for branch from `client.py` lines 106 to 141. -/
def step (r : Response) (attempts : Nat) (backoff : Rat) : StepResult :=
  if 200 ≤ r.status ∧ r.status < 300 then
    if r.text ≠ "" then
      match r.jsonBody with
      | some j => StepResult.done (Outcome.success j)
      | none => StepResult.done Outcome.jsonDecodeError
    else
      StepResult.done (Outcome.success (Json.obj []))
  else
    if r.status = 401 then
      StepResult.done (Outcome.authError ("Unauthorized: " ++ pyStr (extractError r).1))
    else if r.status = 429 then
      if attempts ≤ 5 then
        match r.retryAfter with
        | some f =>
          match f with
          | FloatOfStr.ok v => StepResult.retry v
          | FloatOfStr.raises => StepResult.done Outcome.valueError
        | none => StepResult.retry (PyFloat.finite backoff)
      else
        StepResult.done (Outcome.rateLimitError r.status (extractError r).1 (extractError r).2)
    else if 500 ≤ r.status ∧ r.status < 600 then
      if attempts ≤ 5 then
        StepResult.retry (PyFloat.finite backoff)
      else
        StepResult.done (Outcome.retryableError r.status (extractError r).1 (extractError r).2)
    else
      StepResult.done (Outcome.apiError r.status (extractError r).1 (extractError r).2)

/-- Trace of one `_request` call: final outcome, the durations of the sleeps
performed between attempts, and the request descriptor sent on each
attempt. -/
structure RunResult where
  outcome : Outcome
  sleeps : List Rat
  sent : List RequestDescriptor

/-- The retry loop of `_request`, consuming one scripted response per
attempt.  `attempts` is incremented at the top of each iteration; on a retry
decision the loop performs `time.sleep` (whose uncaught exception ends the
call when the duration is rejected), then applies
`backoff = min(backoff * 2, max_backoff)` and continues, exactly as in the
source. -/
def requestLoop (req : RequestDescriptor) (attempts : Nat) (backoff : Rat) :
    List Response → RunResult
  | [] => ⟨Outcome.transportExhausted, [], []⟩
  | r :: rest =>
    match step r (attempts + 1) backoff with
    | StepResult.done o => ⟨o, [], [req]⟩
    | StepResult.retry d =>
      match pySleep d with
      | some q =>
        let res := requestLoop req (attempts + 1) (pyMin (backoff * 2) maxBackoff) rest
        ⟨res.outcome, q :: res.sleeps, req :: res.sent⟩
      | none => ⟨sleepException d, [], [req]⟩

/-- One call of `_request`: `backoff = 1.0`, `attempts = 0` before the
loop. -/
def runRequest (req : RequestDescriptor) (responses : List Response) : RunResult :=
  requestLoop req 0 1 responses

/-- The internal backoff value in force before the sleep that follows
attempt `i + 1`: base 1, doubled after each sleep, capped at 16, hence the
schedule 1, 2, 4, 8, 16, 16, ... -/
def backoffAt : Nat → Rat
  | 0 => 1
  | i + 1 => pyMin (backoffAt i * 2) maxBackoff

/-- The closed set of error categories of the taxonomy. -/
inductive ErrCategory where
  | auth : ErrCategory
  | rateLimited : ErrCategory
  | serverRetryable : ErrCategory
  | api : ErrCategory
deriving DecidableEq

/-- The category of a typed error outcome; `none` for success and for the
unclassified escaped exceptions. -/
def errCategory : Outcome → Option ErrCategory
  | Outcome.authError _ => some ErrCategory.auth
  | Outcome.rateLimitError _ _ _ => some ErrCategory.rateLimited
  | Outcome.retryableError _ _ _ => some ErrCategory.serverRetryable
  | Outcome.apiError _ _ _ => some ErrCategory.api
  | _ => none

/-- The status attribute carried by a raised error, when the error class has
one.  `AuthError` subclasses the bare `GSCError` and stores no status. -/
def errStatus : Outcome → Option Nat
  | Outcome.rateLimitError s _ _ => some s
  | Outcome.retryableError s _ _ => some s
  | Outcome.apiError s _ _ => some s
  | _ => none

/-- The message carried by a raised typed error; the formatted string of an
`AuthError` is reported as a JSON string. -/
def errMessage : Outcome → Option Json
  | Outcome.authError m => some (Json.str m)
  | Outcome.rateLimitError _ m _ => some m
  | Outcome.retryableError _ m _ => some m
  | Outcome.apiError _ m _ => some m
  | _ => none

/-- The reason attribute carried by a raised error, when the error class has
one (`AuthError` has none). -/
def errReason : Outcome → Option (Option Json)
  | Outcome.rateLimitError _ _ rn => some rn
  | Outcome.retryableError _ _ rn => some rn
  | Outcome.apiError _ _ rn => some rn
  | _ => none

/-- Statuses the loop retries: 429 and the 5xx range. -/
def retriableStatus (s : Nat) : Prop :=
  s = 429 ∨ (500 ≤ s ∧ s < 600)

instance (s : Nat) : Decidable (retriableStatus s) := by
  unfold retriableStatus
  infer_instance

/-- A response whose `Retry-After` header, when present, converts to a
finite non-negative value within the `time.sleep` range, so that neither the
`float` conversion nor `time.sleep` can raise on the retry path. -/
def headerOk (r : Response) : Bool :=
  match r.retryAfter with
  | some (FloatOfStr.ok (PyFloat.finite q)) =>
    if 0 ≤ q ∧ q ≤ sleepBound then true else false
  | some _ => false
  | none => true

/-- Mapping claimed by the specification from the final status code to the
error category (written from the words of the spec, for comparison with the
behaviour of `step`). -/
def claimedCategory (status : Nat) : Option ErrCategory :=
  if status = 401 then some ErrCategory.auth
  else if status = 429 then some ErrCategory.rateLimited
  else if 500 ≤ status ∧ status < 600 then some ErrCategory.serverRetryable
  else if 200 ≤ status ∧ status < 300 then none
  else some ErrCategory.api

/-! Concrete fixtures used by witnesses and counterexamples. -/

/-- A concrete request descriptor. -/
def demoReq : RequestDescriptor :=
  ⟨"GET", "https://www.googleapis.com/webmasters/v3/sites", none⟩

/-- A 429 response whose `Retry-After` header is present but not numeric
(for instance the string `soon`), so the `float` conversion raises. -/
def resp429BadHeader : Response :=
  ⟨429, some FloatOfStr.raises, "rate limited", none⟩

/-- A 429 response whose `Retry-After` header reads `7`. -/
def resp429Num : Response :=
  ⟨429, some (FloatOfStr.ok (PyFloat.finite 7)), "rate limited", none⟩

/-- A 429 response whose `Retry-After` header reads `-1`: the conversion
succeeds but `time.sleep` rejects the negative duration. -/
def resp429Neg : Response :=
  ⟨429, some (FloatOfStr.ok (PyFloat.finite (-1))), "rate limited", none⟩

/-- A 429 response without a `Retry-After` header. -/
def resp429Plain : Response :=
  ⟨429, none, "rate limited", none⟩

/-- A 503 response with a JSON error body. -/
def resp503 : Response :=
  ⟨503, none, "backend error",
    some (Json.obj [("error", Json.obj
      [("message", Json.str "Backend Error"),
       ("errors", Json.arr [Json.obj [("reason", Json.str "backendError")]])])])⟩

/-- A 401 response with a plain-text body. -/
def resp401 : Response :=
  ⟨401, none, "no auth", none⟩

/-- A 404 response whose body is not parseable JSON. -/
def resp404Raw : Response :=
  ⟨404, none, "not found here", none⟩

/-- A 200 response with a JSON object body. -/
def resp200 : Response :=
  ⟨200, none, "siteEntry-body", some (Json.obj [("siteEntry", Json.arr [])])⟩

/-- A 204 response with an empty body. -/
def resp204 : Response :=
  ⟨204, none, "", none⟩

/-- A 200 response whose nonempty body is not parseable JSON. -/
def resp200Broken : Response :=
  ⟨200, none, "<html>oops</html>", none⟩
/-! Inversion lemmas for one loop iteration. -/

/-- A retry transition happens only within the attempt budget, on a 429 or a
5xx; the duration handed to `time.sleep` is the float value of the
`Retry-After` header on a 429 that carries one, and the current backoff
otherwise. -/
theorem step_retry_inv (r : Response) (A : Nat) (b : Rat) (d : PyFloat)
    (h : step r A b = StepResult.retry d) :
    A ≤ 5 ∧ ¬(200 ≤ r.status ∧ r.status < 300) ∧
      ((r.status = 429 ∧
          ((∃ v, r.retryAfter = some (FloatOfStr.ok v) ∧ d = v) ∨
            (r.retryAfter = none ∧ d = PyFloat.finite b))) ∨
        (500 ≤ r.status ∧ r.status < 600 ∧ d = PyFloat.finite b)) := by
  obtain ⟨st, ra, tx, jb⟩ := r
  unfold step at h
  dsimp only at h ⊢
  by_cases h2 : 200 ≤ st ∧ st < 300
  · rw [if_pos h2] at h
    by_cases ht : tx ≠ ""
    · rw [if_pos ht] at h
      cases jb <;> cases h
    · rw [if_neg ht] at h
      cases h
  · rw [if_neg h2] at h
    by_cases h401 : st = 401
    · rw [if_pos h401] at h
      cases h
    · rw [if_neg h401] at h
      by_cases h429 : st = 429
      · rw [if_pos h429] at h
        by_cases hA : A ≤ 5
        · rw [if_pos hA] at h
          cases ra with
          | none =>
            cases h
            exact ⟨hA, h2, Or.inl ⟨h429, Or.inr ⟨rfl, rfl⟩⟩⟩
          | some f =>
            cases f with
            | ok v =>
              cases h
              exact ⟨hA, h2, Or.inl ⟨h429, Or.inl ⟨_, rfl, rfl⟩⟩⟩
            | raises => cases h
        · rw [if_neg hA] at h
          cases h
      · rw [if_neg h429] at h
        by_cases h5 : 500 ≤ st ∧ st < 600
        · rw [if_pos h5] at h
          by_cases hA : A ≤ 5
          · rw [if_pos hA] at h
            cases h
            exact ⟨hA, h2, Or.inr ⟨h5.1, h5.2, rfl⟩⟩
          · rw [if_neg hA] at h
            cases h
        · rw [if_neg h5] at h
          cases h

/-- Complete case description of a step that ends the call on its own: the
outcome is determined by the status code of the response (together with the
attempt budget for 429/5xx and the body fields for 2xx), and every carried
status, message and reason comes from that same response. -/
theorem step_done_inv (r : Response) (A : Nat) (b : Rat) (o : Outcome)
    (h : step r A b = StepResult.done o) :
    ((200 ≤ r.status ∧ r.status < 300) ∧
        ((∃ j, r.jsonBody = some j ∧ r.text ≠ "" ∧ o = Outcome.success j) ∨
          (r.text = "" ∧ o = Outcome.success (Json.obj [])) ∨
          (r.jsonBody = none ∧ r.text ≠ "" ∧ o = Outcome.jsonDecodeError))) ∨
      (¬(200 ≤ r.status ∧ r.status < 300) ∧
        ((r.status = 401 ∧
            o = Outcome.authError ("Unauthorized: " ++ pyStr (extractError r).1)) ∨
          (r.status = 429 ∧ ¬A ≤ 5 ∧
            o = Outcome.rateLimitError r.status (extractError r).1 (extractError r).2) ∨
          (r.status = 429 ∧ A ≤ 5 ∧ r.retryAfter = some FloatOfStr.raises ∧
            o = Outcome.valueError) ∨
          (500 ≤ r.status ∧ r.status < 600 ∧ ¬A ≤ 5 ∧
            o = Outcome.retryableError r.status (extractError r).1 (extractError r).2) ∨
          (r.status ≠ 401 ∧ r.status ≠ 429 ∧ ¬(500 ≤ r.status ∧ r.status < 600) ∧
            o = Outcome.apiError r.status (extractError r).1 (extractError r).2))) := by
  obtain ⟨st, ra, tx, jb⟩ := r
  unfold step at h
  dsimp only at h ⊢
  by_cases h2 : 200 ≤ st ∧ st < 300
  · rw [if_pos h2] at h
    refine Or.inl ⟨h2, ?_⟩
    by_cases ht : tx ≠ ""
    · rw [if_pos ht] at h
      cases jb with
      | none =>
        cases h
        exact Or.inr (Or.inr ⟨rfl, ht, rfl⟩)
      | some j =>
        cases h
        exact Or.inl ⟨j, rfl, ht, rfl⟩
    · rw [if_neg ht] at h
      cases h
      exact Or.inr (Or.inl ⟨not_not.mp ht, rfl⟩)
  · rw [if_neg h2] at h
    refine Or.inr ⟨h2, ?_⟩
    by_cases h401 : st = 401
    · rw [if_pos h401] at h
      cases h
      exact Or.inl ⟨h401, rfl⟩
    · rw [if_neg h401] at h
      by_cases h429 : st = 429
      · rw [if_pos h429] at h
        by_cases hA : A ≤ 5
        · rw [if_pos hA] at h
          cases ra with
          | none => cases h
          | some f =>
            cases f with
            | ok v => cases h
            | raises =>
              cases h
              exact Or.inr (Or.inr (Or.inl ⟨h429, hA, rfl, rfl⟩))
        · rw [if_neg hA] at h
          cases h
          exact Or.inr (Or.inl ⟨h429, hA, rfl⟩)
      · rw [if_neg h429] at h
        by_cases h5 : 500 ≤ st ∧ st < 600
        · rw [if_pos h5] at h
          by_cases hA : A ≤ 5
          · rw [if_pos hA] at h
            cases h
          · rw [if_neg hA] at h
            cases h
            exact Or.inr (Or.inr (Or.inr (Or.inl ⟨h5.1, h5.2, hA, rfl⟩)))
        · rw [if_neg h5] at h
          cases h
          exact Or.inr (Or.inr (Or.inr (Or.inr ⟨h401, h429, h5, rfl⟩)))

/-- A successful sleep hands back exactly the finite non-negative duration it
was given. -/
theorem pySleep_some (d : PyFloat) (q : Rat) (h : pySleep d = some q) :
    d = PyFloat.finite q ∧ 0 ≤ q ∧ q ≤ sleepBound := by
  cases d with
  | finite x =>
    unfold pySleep at h
    dsimp only at h
    by_cases hx : 0 ≤ x ∧ x ≤ sleepBound
    · rw [if_pos hx] at h
      cases h
      exact ⟨rfl, hx.1, hx.2⟩
    · rw [if_neg hx] at h
      cases h
  | posInf => cases h
  | negInf => cases h
  | nan => cases h

/-- The uncaught exceptions of `time.sleep` carry no category, message,
reason or status. -/
theorem sleepException_none (d : PyFloat) :
    errCategory (sleepException d) = none ∧
    errMessage (sleepException d) = none ∧
    errReason (sleepException d) = none ∧
    errStatus (sleepException d) = none := by
  cases d with
  | finite q =>
    unfold sleepException
    dsimp only
    by_cases hc : q < -sleepBound ∨ sleepBound < q
    · rw [if_pos hc]
      exact ⟨rfl, rfl, rfl, rfl⟩
    · rw [if_neg hc]
      exact ⟨rfl, rfl, rfl, rfl⟩
  | posInf => exact ⟨rfl, rfl, rfl, rfl⟩
  | negInf => exact ⟨rfl, rfl, rfl, rfl⟩
  | nan => exact ⟨rfl, rfl, rfl, rfl⟩

/-- A `headerOk` response either has no `Retry-After` header, or one whose
float value is finite, non-negative and within the `time.sleep` range. -/
theorem headerOk_cases (r : Response) (hok : headerOk r = true) :
    r.retryAfter = none ∨
      ∃ q, r.retryAfter = some (FloatOfStr.ok (PyFloat.finite q)) ∧
        0 ≤ q ∧ q ≤ sleepBound := by
  unfold headerOk at hok
  cases hra : r.retryAfter with
  | none => exact Or.inl rfl
  | some f =>
    rw [hra] at hok
    cases f with
    | raises => cases hok
    | ok v =>
      cases v with
      | finite q =>
        dsimp only at hok
        by_cases hc : 0 ≤ q ∧ q ≤ sleepBound
        · exact Or.inr ⟨q, rfl, hc.1, hc.2⟩
        · rw [if_neg hc] at hok
          cases hok
      | posInf => cases hok
      | negInf => cases hok
      | nan => cases hok

/-! Loop-level lemmas. -/

/-- The same request descriptor is sent on every attempt: the sent trace is a
replication of the descriptor. -/
theorem loop_sent (req : RequestDescriptor) :
    ∀ (rs : List Response) (a : Nat) (b : Rat),
      (requestLoop req a b rs).sent =
        List.replicate (requestLoop req a b rs).sent.length req := by
  intro rs
  induction rs with
  | nil => intro a b; rfl
  | cons r rest ih =>
    intro a b
    cases hstep : step r (a + 1) b with
    | done o => simp [requestLoop, hstep]
    | retry d =>
      cases hq : pySleep d with
      | none => simp [requestLoop, hstep, hq]
      | some q =>
        simp only [requestLoop, hstep, hq, List.length_cons, List.replicate_succ,
          List.cons.injEq, true_and]
        exact ih (a + 1) (pyMin (b * 2) maxBackoff)

/-- Attempt-count bound: starting from attempt counter `a ≤ 5`, at most
`6 - a` further attempts are performed, because a retry requires the
incremented counter to be at most 5. -/
theorem loop_len (req : RequestDescriptor) :
    ∀ (rs : List Response) (a : Nat) (b : Rat), a ≤ 5 →
      (requestLoop req a b rs).sent.length + a ≤ 6 := by
  intro rs
  induction rs with
  | nil => intro a b ha; simpa [requestLoop] using by omega
  | cons r rest ih =>
    intro a b ha
    cases hstep : step r (a + 1) b with
    | done o =>
      simp only [requestLoop, hstep, List.length_cons, List.length_nil]
      omega
    | retry d =>
      cases hq : pySleep d with
      | none =>
        simp only [requestLoop, hstep, hq, List.length_cons, List.length_nil]
        omega
      | some q =>
        have hA := (step_retry_inv r (a + 1) b d hstep).1
        have := ih (a + 1) (pyMin (b * 2) maxBackoff) hA
        simp only [requestLoop, hstep, hq, List.length_cons]
        omega

/-- A terminated run performed at least one attempt, its final attempt
consumed the response at index `n - 1` of the script, and the outcome came
from that response: either the `done` result of one `step` on it, or the
uncaught exception of the `time.sleep` that followed a retry decision on it
(at attempt counter `a + n` and backoff `backoffAt (a + (n - 1))`, where `n`
is the number of attempts). -/
theorem loop_done (req : RequestDescriptor) :
    ∀ (rs : List Response) (a : Nat),
      (requestLoop req a (backoffAt a) rs).outcome ≠ Outcome.transportExhausted →
      1 ≤ (requestLoop req a (backoffAt a) rs).sent.length ∧
      ∃ r, rs.get? ((requestLoop req a (backoffAt a) rs).sent.length - 1) = some r ∧
        (step r (a + (requestLoop req a (backoffAt a) rs).sent.length)
            (backoffAt (a + ((requestLoop req a (backoffAt a) rs).sent.length - 1))) =
          StepResult.done (requestLoop req a (backoffAt a) rs).outcome ∨
        ∃ d, step r (a + (requestLoop req a (backoffAt a) rs).sent.length)
            (backoffAt (a + ((requestLoop req a (backoffAt a) rs).sent.length - 1))) =
          StepResult.retry d ∧ pySleep d = none ∧
          (requestLoop req a (backoffAt a) rs).outcome = sleepException d) := by
  intro rs
  induction rs with
  | nil => intro a hne; exact absurd rfl hne
  | cons r rest ih =>
    intro a hne
    cases hstep : step r (a + 1) (backoffAt a) with
    | done o =>
      rw [show requestLoop req a (backoffAt a) (r :: rest) = ⟨o, [], [req]⟩ by
        simp [requestLoop, hstep]] at hne ⊢
      exact ⟨Nat.le_refl 1, r, rfl, Or.inl (by simpa using hstep)⟩
    | retry d =>
      cases hq : pySleep d with
      | none =>
        rw [show requestLoop req a (backoffAt a) (r :: rest) =
            ⟨sleepException d, [], [req]⟩ by simp [requestLoop, hstep, hq]] at hne ⊢
        exact ⟨Nat.le_refl 1, r, rfl, Or.inr ⟨d, by simpa using hstep, hq, rfl⟩⟩
      | some q =>
        have hb : pyMin (backoffAt a * 2) maxBackoff = backoffAt (a + 1) := rfl
        rw [show requestLoop req a (backoffAt a) (r :: rest) =
            ⟨(requestLoop req (a + 1) (backoffAt (a + 1)) rest).outcome,
              q :: (requestLoop req (a + 1) (backoffAt (a + 1)) rest).sleeps,
              req :: (requestLoop req (a + 1) (backoffAt (a + 1)) rest).sent⟩ by
          simp [requestLoop, hstep, hq, hb]] at hne ⊢
        obtain ⟨hn1, r5, hget, hstep5⟩ := ih (a + 1) hne
        set n5 := (requestLoop req (a + 1) (backoffAt (a + 1)) rest).sent.length with hn5
        refine ⟨by simp [List.length_cons], r5, ?_, ?_⟩
        · simp only [List.length_cons]
          have : n5 + 1 - 1 = (n5 - 1) + 1 := by omega
          rw [this, List.get?_cons_succ]
          exact hget
        · simp only [List.length_cons]
          have e1 : a + (n5 + 1) = a + 1 + n5 := by omega
          have e2 : a + (n5 + 1 - 1) = a + 1 + (n5 - 1) := by omega
          rw [e1, e2]
          exact hstep5

/-- The backoff schedule starts at the base value 1. -/
theorem backoffAt_ge_one : ∀ i, (1 : Rat) ≤ backoffAt i := by
  intro i
  induction i with
  | zero => simp [backoffAt]
  | succ i ih =>
    unfold backoffAt pyMin maxBackoff
    split
    · linarith
    · linarith

/-- The backoff schedule is capped at 16. -/
theorem backoffAt_le_cap : ∀ i, backoffAt i ≤ 16 := by
  intro i
  cases i with
  | zero => simp [backoffAt]
  | succ i =>
    unfold backoffAt pyMin maxBackoff
    split
    · linarith
    · linarith

/-- The backoff schedule never decreases. -/
theorem backoffAt_mono : ∀ i, backoffAt i ≤ backoffAt (i + 1) := by
  intro i
  have h1 := backoffAt_ge_one i
  have h2 := backoffAt_le_cap i
  show backoffAt i ≤ pyMin (backoffAt i * 2) maxBackoff
  unfold pyMin maxBackoff
  split
  · linarith
  · linarith

/-- Every backoff value is accepted by `time.sleep`. -/
theorem backoffAt_sleepable : ∀ i, (0 : Rat) ≤ backoffAt i ∧ backoffAt i ≤ sleepBound := by
  intro i
  constructor
  · linarith [backoffAt_ge_one i]
  · have h16 : (16 : Rat) ≤ sleepBound := by decide
    linarith [backoffAt_le_cap i]

/-- The sleep recorded at index `i` of a run was caused by the response at
index `i` of the script; its duration is the finite float value of the
`Retry-After` header when that response is a 429 carrying one, and the
internal backoff value `backoffAt (a + i)` otherwise. -/
theorem loop_sleeps_spec (req : RequestDescriptor) :
    ∀ (rs : List Response) (a i : Nat) (s : Rat),
      (requestLoop req a (backoffAt a) rs).sleeps.get? i = some s →
      ∃ r, rs.get? i = some r ∧
        ((r.status = 429 ∧ r.retryAfter = some (FloatOfStr.ok (PyFloat.finite s))) ∨
          s = backoffAt (a + i)) := by
  intro rs
  induction rs with
  | nil =>
    intro a i s hs
    simp [requestLoop] at hs
  | cons r rest ih =>
    intro a i s hs
    cases hstep : step r (a + 1) (backoffAt a) with
    | done o =>
      rw [show requestLoop req a (backoffAt a) (r :: rest) =
        ⟨o, [], [req]⟩ by simp [requestLoop, hstep]] at hs
      simp at hs
    | retry d =>
      cases hq : pySleep d with
      | none =>
        rw [show requestLoop req a (backoffAt a) (r :: rest) =
          ⟨sleepException d, [], [req]⟩ by simp [requestLoop, hstep, hq]] at hs
        simp at hs
      | some q =>
        have hb : pyMin (backoffAt a * 2) maxBackoff = backoffAt (a + 1) := rfl
        rw [show requestLoop req a (backoffAt a) (r :: rest) =
            ⟨(requestLoop req (a + 1) (backoffAt (a + 1)) rest).outcome,
              q :: (requestLoop req (a + 1) (backoffAt (a + 1)) rest).sleeps,
              req :: (requestLoop req (a + 1) (backoffAt (a + 1)) rest).sent⟩ by
          simp [requestLoop, hstep, hq, hb]] at hs
        cases i with
        | zero =>
          simp only [List.get?_cons_zero, Option.some.injEq] at hs
          refine ⟨r, rfl, ?_⟩
          obtain ⟨hd, hq0, hqB⟩ := pySleep_some d q hq
          obtain ⟨hA, h2, hc⟩ := step_retry_inv r (a + 1) (backoffAt a) d hstep
          rcases hc with ⟨h429, hc2⟩ | ⟨_, _, hdb⟩
          · rcases hc2 with ⟨v, hra, hdv⟩ | ⟨hra, hdb⟩
            · refine Or.inl ⟨h429, ?_⟩
              have hv : v = PyFloat.finite s := by
                rw [← hdv, hd, hs]
              rw [hra, hv]
            · refine Or.inr ?_
              have : backoffAt a = q := by
                have hfin := hdb.symm.trans hd
                simpa [PyFloat.finite.injEq] using hfin
              rw [← hs, ← this]
              simp
          · refine Or.inr ?_
            have : backoffAt a = q := by
              have hfin := hdb.symm.trans hd
              simpa [PyFloat.finite.injEq] using hfin
            rw [← hs, ← this]
            simp
        | succ i =>
          simp only [List.get?_cons_succ] at hs
          obtain ⟨r5, hget, hcase⟩ := ih (a + 1) i s hs
          refine ⟨r5, by simpa using hget, ?_⟩
          rcases hcase with hleft | hval
          · exact Or.inl hleft
          · refine Or.inr ?_
            have : a + 1 + i = a + (i + 1) := by omega
            rw [← this]
            exact hval

/-! Forward computation lemmas. -/

/-- Unfolding of one terminating loop iteration. -/
theorem loop_cons_done (req : RequestDescriptor) (a : Nat) (b : Rat)
    (r : Response) (rest : List Response) (o : Outcome)
    (h : step r (a + 1) b = StepResult.done o) :
    requestLoop req a b (r :: rest) = ⟨o, [], [req]⟩ := by
  simp [requestLoop, h]

/-- Unfolding of one loop iteration that retries after a successful sleep. -/
theorem loop_cons_retry (req : RequestDescriptor) (a : Nat) (b : Rat)
    (r : Response) (rest : List Response) (d : PyFloat) (q : Rat)
    (h : step r (a + 1) b = StepResult.retry d) (hq : pySleep d = some q) :
    requestLoop req a b (r :: rest) =
      ⟨(requestLoop req (a + 1) (pyMin (b * 2) maxBackoff) rest).outcome,
        q :: (requestLoop req (a + 1) (pyMin (b * 2) maxBackoff) rest).sleeps,
        req :: (requestLoop req (a + 1) (pyMin (b * 2) maxBackoff) rest).sent⟩ := by
  simp [requestLoop, h, hq]

/-- Unfolding of one loop iteration whose retry decision dies in
`time.sleep`: the uncaught exception ends the call with no sleep recorded. -/
theorem loop_cons_sleeperr (req : RequestDescriptor) (a : Nat) (b : Rat)
    (r : Response) (rest : List Response) (d : PyFloat)
    (h : step r (a + 1) b = StepResult.retry d) (hq : pySleep d = none) :
    requestLoop req a b (r :: rest) = ⟨sleepException d, [], [req]⟩ := by
  simp [requestLoop, h, hq]

/-- Within the attempt budget, a 429 or 5xx response whose header passes
`headerOk` leads to a retry whose sleep succeeds, provided the current
backoff itself is sleepable. -/
theorem step_retry_of (r : Response) (A : Nat) (b : Rat) (hA : A ≤ 5)
    (hb0 : 0 ≤ b) (hbB : b ≤ sleepBound)
    (hret : retriableStatus r.status) (hok : headerOk r = true) :
    ∃ d q, step r A b = StepResult.retry d ∧ pySleep d = some q := by
  have hsb : pySleep (PyFloat.finite b) = some b := by
    unfold pySleep
    dsimp only
    rw [if_pos ⟨hb0, hbB⟩]
  have h2 : ¬(200 ≤ r.status ∧ r.status < 300) := by
    rcases hret with h | h <;> omega
  have h401 : r.status ≠ 401 := by
    rcases hret with h | h <;> omega
  rcases hret with h429 | h5
  · rcases headerOk_cases r hok with hra | ⟨q, hra, hq0, hqB⟩
    · refine ⟨PyFloat.finite b, b, ?_, hsb⟩
      unfold step
      rw [if_neg h2, if_neg h401, if_pos h429, if_pos hA, hra]
    · refine ⟨PyFloat.finite q, q, ?_, ?_⟩
      · unfold step
        rw [if_neg h2, if_neg h401, if_pos h429, if_pos hA, hra]
      · unfold pySleep
        dsimp only
        rw [if_pos ⟨hq0, hqB⟩]
  · have h429 : r.status ≠ 429 := by omega
    refine ⟨PyFloat.finite b, b, ?_, hsb⟩
    unfold step
    rw [if_neg h2, if_neg h401, if_neg h429, if_pos h5, if_pos hA]

/-- Beyond the attempt budget, a 429 response raises `RateLimitError` and a
5xx response raises `RetryableError`, both built from that response. -/
theorem step_ceiling (r : Response) (A : Nat) (b : Rat) (hA : ¬A ≤ 5) :
    (r.status = 429 →
      step r A b = StepResult.done
        (Outcome.rateLimitError r.status (extractError r).1 (extractError r).2)) ∧
    (500 ≤ r.status ∧ r.status < 600 →
      step r A b = StepResult.done
        (Outcome.retryableError r.status (extractError r).1 (extractError r).2)) := by
  constructor
  · intro h429
    have h2 : ¬(200 ≤ r.status ∧ r.status < 300) := by omega
    have h401 : r.status ≠ 401 := by omega
    unfold step
    rw [if_neg h2, if_neg h401, if_pos h429, if_neg hA]
  · intro h5
    have h2 : ¬(200 ≤ r.status ∧ r.status < 300) := by omega
    have h401 : r.status ≠ 401 := by omega
    have h429 : r.status ≠ 429 := by omega
    unfold step
    rw [if_neg h2, if_neg h401, if_neg h429, if_pos h5, if_neg hA]

/-- A status that the claimed classification sends to the catch-all category
is non-2xx and none of 401, 429, 5xx. -/
theorem claimedCategory_api_inv (s : Nat)
    (h : claimedCategory s = some ErrCategory.api) :
    ¬(200 ≤ s ∧ s < 300) ∧ s ≠ 401 ∧ s ≠ 429 ∧ ¬(500 ≤ s ∧ s < 600) := by
  unfold claimedCategory at h
  by_cases h401 : s = 401
  · rw [if_pos h401] at h
    cases h
  · rw [if_neg h401] at h
    by_cases h429 : s = 429
    · rw [if_pos h429] at h
      cases h
    · rw [if_neg h429] at h
      by_cases h5 : 500 ≤ s ∧ s < 600
      · rw [if_pos h5] at h
        cases h
      · rw [if_neg h5] at h
        by_cases h2 : 200 ≤ s ∧ s < 300
        · rw [if_pos h2] at h
          cases h
        · exact ⟨h2, h401, h429, h5⟩

/-- A status other than 2xx, 401, 429 and 5xx terminates immediately with
`ApiError` built from that response. -/
theorem step_api (r : Response) (A : Nat) (b : Rat)
    (h2 : ¬(200 ≤ r.status ∧ r.status < 300)) (h401 : r.status ≠ 401)
    (h429 : r.status ≠ 429) (h5 : ¬(500 ≤ r.status ∧ r.status < 600)) :
    step r A b = StepResult.done
      (Outcome.apiError r.status (extractError r).1 (extractError r).2) := by
  unfold step
  rw [if_neg h2, if_neg h401, if_neg h429, if_neg h5]

/-- On a 429 within the budget whose `Retry-After` header converts to the
float `v`, the step hands `v` to `time.sleep`. -/
theorem step_429_ok (r : Response) (A : Nat) (b : Rat) (v : PyFloat)
    (h429 : r.status = 429) (hA : A ≤ 5)
    (hra : r.retryAfter = some (FloatOfStr.ok v)) :
    step r A b = StepResult.retry v := by
  have h2 : ¬(200 ≤ r.status ∧ r.status < 300) := by omega
  have h401 : r.status ≠ 401 := by omega
  unfold step
  rw [if_neg h2, if_neg h401, if_pos h429, if_pos hA, hra]

/-- On a 429 within the budget whose `Retry-After` header makes the `float`
conversion raise, the uncaught ValueError ends the call. -/
theorem step_429_raises (r : Response) (A : Nat) (b : Rat)
    (h429 : r.status = 429) (hA : A ≤ 5)
    (hra : r.retryAfter = some FloatOfStr.raises) :
    step r A b = StepResult.done Outcome.valueError := by
  have h2 : ¬(200 ≤ r.status ∧ r.status < 300) := by omega
  have h401 : r.status ≠ 401 := by omega
  unfold step
  rw [if_neg h2, if_neg h401, if_pos h429, if_pos hA, hra]

/-- On a 429 within the budget without a `Retry-After` header, the current
backoff is handed to `time.sleep`. -/
theorem step_429_noheader (r : Response) (A : Nat) (b : Rat)
    (h429 : r.status = 429) (hA : A ≤ 5) (hra : r.retryAfter = none) :
    step r A b = StepResult.retry (PyFloat.finite b) := by
  have h2 : ¬(200 ≤ r.status ∧ r.status < 300) := by omega
  have h401 : r.status ≠ 401 := by omega
  unfold step
  rw [if_neg h2, if_neg h401, if_pos h429, if_pos hA, hra]

/-! The claims. -/

/-- Claim C4: for every call whose first response has status 401, the
executor raises `AuthError` immediately: exactly one attempt is performed and
zero sleeps occur, regardless of the remaining attempt budget (the scripted
continuation `rest` is never consumed).  The error carries the formatted
message of `client.py` line 125. -/
theorem spec_C4 (req : RequestDescriptor) (r : Response) (rest : List Response)
    (h : r.status = 401) :
    runRequest req (r :: rest) =
      ⟨Outcome.authError ("Unauthorized: " ++ pyStr (extractError r).1),
        [], [req]⟩ := by
  have h2 : ¬(200 ≤ r.status ∧ r.status < 300) := by omega
  have hstep : step r (0 + 1) 1 = StepResult.done
      (Outcome.authError ("Unauthorized: " ++ pyStr (extractError r).1)) := by
    unfold step
    rw [if_neg h2, if_pos h]
  exact loop_cons_done req 0 1 r rest _ hstep

/-- Witness for C4 at a concrete 401 response with body text `no auth`. -/
theorem spec_C4_witness :
    runRequest demoReq [resp401] =
      ⟨Outcome.authError "Unauthorized: no auth", [], [demoReq]⟩ :=
  spec_C4 demoReq resp401 [] rfl

/-- Claim C5 is false as stated: on a 429 whose `Retry-After` header is
present but not parseable as a number (the `float` conversion raises, as for
the string `soon`), the executor does not fall back to the current backoff
value — the uncaught ValueError ends the call with no sleep, and the
scripted 200 that would have followed is never consumed.  Moreover even a
parseable header value need not become a sleep: at `-1` the conversion
succeeds but `time.sleep` itself raises an uncaught ValueError, again with
no sleep performed. -/
theorem spec_C5_counterexample :
    resp429BadHeader.status = 429 ∧
    resp429BadHeader.retryAfter = some FloatOfStr.raises ∧
    runRequest demoReq [resp429BadHeader, resp200] =
      ⟨Outcome.valueError, [], [demoReq]⟩ ∧
    resp429Neg.retryAfter = some (FloatOfStr.ok (PyFloat.finite (-1))) ∧
    runRequest demoReq [resp429Neg, resp200] =
      ⟨Outcome.valueError, [], [demoReq]⟩ :=
  ⟨rfl, rfl, rfl, rfl, rfl⟩

/-- Claim C5 (amended): on a 429 response within the retry budget, the sleep
is taken from the `Retry-After` header only when the header is present and
its `float` conversion yields a finite non-negative value in the
`time.sleep` range, in which case exactly that value is slept; when the
header is absent the current backoff value (1 on the first attempt) is
slept; when the header is present but the conversion raises, the executor
does not fall back — the uncaught ValueError ends the call at once with no
sleep; and when the conversion yields a value `time.sleep` rejects
(negative, NaN, or out of range), the uncaught exception of `time.sleep`
ends the call, again with no sleep. -/
theorem spec_C5 (req : RequestDescriptor) (r : Response) (rest : List Response)
    (h429 : r.status = 429) :
    (∀ q, r.retryAfter = some (FloatOfStr.ok (PyFloat.finite q)) →
      0 ≤ q → q ≤ sleepBound →
      ∃ tail, (runRequest req (r :: rest)).sleeps = q :: tail) ∧
    (r.retryAfter = some FloatOfStr.raises →
      runRequest req (r :: rest) = ⟨Outcome.valueError, [], [req]⟩) ∧
    (∀ v, r.retryAfter = some (FloatOfStr.ok v) → pySleep v = none →
      runRequest req (r :: rest) = ⟨sleepException v, [], [req]⟩) ∧
    (r.retryAfter = none →
      ∃ tail, (runRequest req (r :: rest)).sleeps = (1 : Rat) :: tail) := by
  refine ⟨?_, ?_, ?_, ?_⟩
  · intro q hra hq0 hqB
    have hstep : step r (0 + 1) 1 = StepResult.retry (PyFloat.finite q) :=
      step_429_ok r (0 + 1) 1 (PyFloat.finite q) h429 (by omega) hra
    have hq : pySleep (PyFloat.finite q) = some q := by
      unfold pySleep
      dsimp only
      rw [if_pos ⟨hq0, hqB⟩]
    refine ⟨(requestLoop req (0 + 1) (pyMin (1 * 2) maxBackoff) rest).sleeps, ?_⟩
    show (requestLoop req 0 1 (r :: rest)).sleeps = _
    rw [loop_cons_retry req 0 1 r rest (PyFloat.finite q) q hstep hq]
  · intro hra
    exact loop_cons_done req 0 1 r rest _
      (step_429_raises r (0 + 1) 1 h429 (by omega) hra)
  · intro v hra hnone
    exact loop_cons_sleeperr req 0 1 r rest v
      (step_429_ok r (0 + 1) 1 v h429 (by omega) hra) hnone
  · intro hra
    have hstep : step r (0 + 1) 1 = StepResult.retry (PyFloat.finite 1) :=
      step_429_noheader r (0 + 1) 1 h429 (by omega) hra
    have hq : pySleep (PyFloat.finite 1) = some 1 := by
      unfold pySleep
      dsimp only
      rw [if_pos ⟨by norm_num, by decide⟩]
    refine ⟨(requestLoop req (0 + 1) (pyMin (1 * 2) maxBackoff) rest).sleeps, ?_⟩
    show (requestLoop req 0 1 (r :: rest)).sleeps = _
    rw [loop_cons_retry req 0 1 r rest (PyFloat.finite 1) 1 hstep hq]

/-- Witness for C5 (amended) at a concrete 429 whose header reads `7`. -/
theorem spec_C5_witness :
    ∃ tail, (runRequest demoReq [resp429Num, resp200]).sleeps = (7 : Rat) :: tail :=
  (spec_C5 demoReq resp429Num [resp200] rfl).1 7 rfl (by decide) (by decide)

/-- Claim C7: at any attempt state, a response with status in [200, 300)
yields a success outcome on that very attempt: the parsed JSON mapping when
the body is nonempty, and the empty mapping (never an error) when the body is
empty, as for a 204 No Content. -/
theorem spec_C7 (req : RequestDescriptor) (r : Response) (rest : List Response)
    (h2 : 200 ≤ r.status ∧ r.status < 300) :
    (∀ (a : Nat) (b : Rat), r.text = "" →
      requestLoop req a b (r :: rest) =
        ⟨Outcome.success (Json.obj []), [], [req]⟩) ∧
    (∀ (a : Nat) (b : Rat) (kvs : List (String × Json)),
      r.jsonBody = some (Json.obj kvs) → r.text ≠ "" →
      requestLoop req a b (r :: rest) =
        ⟨Outcome.success (Json.obj kvs), [], [req]⟩) := by
  constructor
  · intro a b ht
    have hstep : step r (a + 1) b =
        StepResult.done (Outcome.success (Json.obj [])) := by
      unfold step
      rw [if_pos h2, if_neg (by simp [ht])]
    exact loop_cons_done req a b r rest _ hstep
  · intro a b kvs hj ht
    have hstep : step r (a + 1) b =
        StepResult.done (Outcome.success (Json.obj kvs)) := by
      unfold step
      rw [if_pos h2, if_pos ht, hj]
    exact loop_cons_done req a b r rest _ hstep

/-- Witness for C7: a 204 with empty body returns the empty mapping. -/
theorem spec_C7_witness :
    requestLoop demoReq 0 1 [resp204] =
      ⟨Outcome.success (Json.obj []), [], [demoReq]⟩ :=
  (spec_C7 demoReq resp204 [] (by decide)).1 0 1 rfl

/-- Claim C10: for a response with status in [200, 300) whose nonempty body
is not valid JSON, the executor raises the unclassified JSON-parsing
exception of `resp.json()` — an outcome outside the four typed error
categories and distinct from every success outcome. -/
theorem spec_C10 (req : RequestDescriptor) (r : Response) (rest : List Response)
    (h2 : 200 ≤ r.status ∧ r.status < 300) (ht : r.text ≠ "")
    (hj : r.jsonBody = none) :
    runRequest req (r :: rest) = ⟨Outcome.jsonDecodeError, [], [req]⟩ ∧
    errCategory Outcome.jsonDecodeError = none ∧
    (∀ j, Outcome.jsonDecodeError ≠ Outcome.success j) := by
  refine ⟨?_, rfl, ?_⟩
  · have hstep : step r (0 + 1) 1 = StepResult.done Outcome.jsonDecodeError := by
      unfold step
      rw [if_pos h2, if_pos ht, hj]
    exact loop_cons_done req 0 1 r rest _ hstep
  · intro j h
    cases h

/-- Witness for C10 at a concrete 200 with an HTML body. -/
theorem spec_C10_witness :
    runRequest demoReq [resp200Broken] =
      ⟨Outcome.jsonDecodeError, [], [demoReq]⟩ ∧
    errCategory Outcome.jsonDecodeError = none :=
  ⟨(spec_C10 demoReq resp200Broken [] (by decide) (by decide) rfl).1,
    (spec_C10 demoReq resp200Broken [] (by decide) (by decide) rfl).2.1⟩

/-- Claim C8: the request descriptor is immutable across retries — the trace
of sent requests of any run is a replication of the descriptor of attempt 1,
so method, URL and JSON body are identical on every attempt. -/
theorem spec_C8 (req : RequestDescriptor) (rs : List Response) :
    (runRequest req rs).sent =
      List.replicate (runRequest req rs).sent.length req :=
  loop_sent req rs 0 1

/-- Claim C3: every sleep of a run follows the internal schedule
`backoffAt`, which starts at 1, doubles after each retry sleep with a cap of
16 (so the internal delays are 1, 2, 4, 8, 16, 16, ...) and never decreases;
the only deviation is a 429 response whose `Retry-After` header carries a
numeric value, which overrides exactly that sleep (the schedule value used
at every other index is `backoffAt i`, independent of any earlier
override). -/
theorem spec_C3 (req : RequestDescriptor) (rs : List Response) (i : Nat) (s : Rat)
    (hs : (runRequest req rs).sleeps.get? i = some s) :
    (∃ r, rs.get? i = some r ∧
      ((r.status = 429 ∧ r.retryAfter = some (FloatOfStr.ok (PyFloat.finite s))) ∨
        s = backoffAt i)) ∧
    backoffAt 0 = 1 ∧
    (∀ j, backoffAt (j + 1) = pyMin (backoffAt j * 2) maxBackoff) ∧
    (∀ j, backoffAt j ≤ backoffAt (j + 1)) ∧
    (∀ j, backoffAt j ≤ 16) := by
  refine ⟨?_, rfl, fun j => rfl, backoffAt_mono, backoffAt_le_cap⟩
  simpa using loop_sleeps_spec req rs 0 i s hs

/-- Witness for C3: the first sleep of a run that retries a 503 equals the
backoff base 1. -/
theorem spec_C3_witness :
    (∃ r, ([resp503, resp204] : List Response).get? 0 = some r ∧
      ((r.status = 429 ∧ r.retryAfter = some (FloatOfStr.ok (PyFloat.finite 1))) ∨
        (1 : Rat) = backoffAt 0)) ∧
    backoffAt 0 = 1 ∧
    (∀ j, backoffAt (j + 1) = pyMin (backoffAt j * 2) maxBackoff) ∧
    (∀ j, backoffAt j ≤ backoffAt (j + 1)) ∧
    (∀ j, backoffAt j ≤ 16) :=
  spec_C3 demoReq [resp503, resp204] 0 1 (by decide)

/-- Claim C1 is false as stated: a request whose responses are all 429 does
not always reach 6 attempts — when the 429 carries a `Retry-After` header on
which the `float` conversion raises, the very first retry attempt dies with
an uncaught ValueError, so only one attempt is performed and none of the
four typed terminal errors is raised. -/
theorem spec_C1_counterexample :
    (∀ r ∈ List.replicate 6 resp429BadHeader, r.status = 429) ∧
    resp429BadHeader.retryAfter = some FloatOfStr.raises ∧
    (runRequest demoReq (List.replicate 6 resp429BadHeader)).sent.length = 1 ∧
    errCategory (runRequest demoReq (List.replicate 6 resp429BadHeader)).outcome = none ∧
    (runRequest demoReq (List.replicate 6 resp429BadHeader)).outcome =
      Outcome.valueError := by
  refine ⟨?_, rfl, rfl, rfl, rfl⟩
  intro r hr
  rw [List.eq_of_mem_replicate hr]
  rfl

/-- Claim C1 (amended): for every request whose first six responses all have
status 429 or 5xx, provided each 429 among the first five either lacks a
`Retry-After` header or carries one whose `float` value is finite,
non-negative and accepted by `time.sleep`, the executor performs exactly 6
attempts (1 initial + 5 retries) and raises the terminal error of the 6th
response: `RateLimitError` for 429, `RetryableError` for 5xx, with status,
message and reason extracted from that 6th response. -/
theorem spec_C1 (req : RequestDescriptor) (r0 r1 r2 r3 r4 r5 : Response)
    (rest : List Response)
    (h0 : retriableStatus r0.status) (k0 : headerOk r0 = true)
    (h1 : retriableStatus r1.status) (k1 : headerOk r1 = true)
    (h2 : retriableStatus r2.status) (k2 : headerOk r2 = true)
    (h3 : retriableStatus r3.status) (k3 : headerOk r3 = true)
    (h4 : retriableStatus r4.status) (k4 : headerOk r4 = true)
    (h5 : retriableStatus r5.status) :
    (runRequest req (r0 :: r1 :: r2 :: r3 :: r4 :: r5 :: rest)).sent.length = 6 ∧
    ((r5.status = 429 ∧
        (runRequest req (r0 :: r1 :: r2 :: r3 :: r4 :: r5 :: rest)).outcome =
          Outcome.rateLimitError r5.status (extractError r5).1 (extractError r5).2) ∨
      ((500 ≤ r5.status ∧ r5.status < 600) ∧
        (runRequest req (r0 :: r1 :: r2 :: r3 :: r4 :: r5 :: rest)).outcome =
          Outcome.retryableError r5.status (extractError r5).1 (extractError r5).2)) := by
  obtain ⟨d0, q0, hs0, hp0⟩ := step_retry_of r0 (0 + 1) (backoffAt 0) (by omega)
    (backoffAt_sleepable 0).1 (backoffAt_sleepable 0).2 h0 k0
  obtain ⟨d1, q1, hs1, hp1⟩ := step_retry_of r1 (1 + 1) (backoffAt 1) (by omega)
    (backoffAt_sleepable 1).1 (backoffAt_sleepable 1).2 h1 k1
  obtain ⟨d2, q2, hs2, hp2⟩ := step_retry_of r2 (2 + 1) (backoffAt 2) (by omega)
    (backoffAt_sleepable 2).1 (backoffAt_sleepable 2).2 h2 k2
  obtain ⟨d3, q3, hs3, hp3⟩ := step_retry_of r3 (3 + 1) (backoffAt 3) (by omega)
    (backoffAt_sleepable 3).1 (backoffAt_sleepable 3).2 h3 k3
  obtain ⟨d4, q4, hs4, hp4⟩ := step_retry_of r4 (4 + 1) (backoffAt 4) (by omega)
    (backoffAt_sleepable 4).1 (backoffAt_sleepable 4).2 h4 k4
  have e0 := loop_cons_retry req 0 (backoffAt 0) r0
    (r1 :: r2 :: r3 :: r4 :: r5 :: rest) d0 q0 hs0 hp0
  rw [show pyMin (backoffAt 0 * 2) maxBackoff = backoffAt 1 from rfl] at e0
  have e1 := loop_cons_retry req 1 (backoffAt 1) r1
    (r2 :: r3 :: r4 :: r5 :: rest) d1 q1 hs1 hp1
  rw [show pyMin (backoffAt 1 * 2) maxBackoff = backoffAt 2 from rfl] at e1
  have e2 := loop_cons_retry req 2 (backoffAt 2) r2
    (r3 :: r4 :: r5 :: rest) d2 q2 hs2 hp2
  rw [show pyMin (backoffAt 2 * 2) maxBackoff = backoffAt 3 from rfl] at e2
  have e3 := loop_cons_retry req 3 (backoffAt 3) r3
    (r4 :: r5 :: rest) d3 q3 hs3 hp3
  rw [show pyMin (backoffAt 3 * 2) maxBackoff = backoffAt 4 from rfl] at e3
  have e4 := loop_cons_retry req 4 (backoffAt 4) r4
    (r5 :: rest) d4 q4 hs4 hp4
  rw [show pyMin (backoffAt 4 * 2) maxBackoff = backoffAt 5 from rfl] at e4
  have hrr : runRequest req (r0 :: r1 :: r2 :: r3 :: r4 :: r5 :: rest) =
      requestLoop req 0 (backoffAt 0) (r0 :: r1 :: r2 :: r3 :: r4 :: r5 :: rest) := rfl
  rcases h5 with h429 | h5xx
  · have hstep5 := (step_ceiling r5 (5 + 1) (backoffAt 5) (by omega)).1 h429
    have e5 := loop_cons_done req 5 (backoffAt 5) r5 rest _ hstep5
    refine ⟨?_, Or.inl ⟨h429, ?_⟩⟩
    · rw [hrr, e0]
      simp only [e1, e2, e3, e4, e5, List.length_cons, List.length_nil]
    · rw [hrr, e0]
      simp only [e1, e2, e3, e4, e5]
  · have hstep5 := (step_ceiling r5 (5 + 1) (backoffAt 5) (by omega)).2 h5xx
    have e5 := loop_cons_done req 5 (backoffAt 5) r5 rest _ hstep5
    refine ⟨?_, Or.inr ⟨h5xx, ?_⟩⟩
    · rw [hrr, e0]
      simp only [e1, e2, e3, e4, e5, List.length_cons, List.length_nil]
    · rw [hrr, e0]
      simp only [e1, e2, e3, e4, e5]

/-- Witness for C1 (amended): six consecutive 503 responses produce exactly
6 attempts and a `RetryableError` built from the 6th response. -/
theorem spec_C1_witness :
    (runRequest demoReq [resp503, resp503, resp503, resp503, resp503, resp503]).sent.length = 6 ∧
    ((resp503.status = 429 ∧
        (runRequest demoReq [resp503, resp503, resp503, resp503, resp503, resp503]).outcome =
          Outcome.rateLimitError resp503.status (extractError resp503).1 (extractError resp503).2) ∨
      ((500 ≤ resp503.status ∧ resp503.status < 600) ∧
        (runRequest demoReq [resp503, resp503, resp503, resp503, resp503, resp503]).outcome =
          Outcome.retryableError resp503.status (extractError resp503).1 (extractError resp503).2)) :=
  spec_C1 demoReq resp503 resp503 resp503 resp503 resp503 resp503 []
    (by decide) (by decide) (by decide) (by decide) (by decide) (by decide)
    (by decide) (by decide) (by decide) (by decide) (by decide)

/-- Claim C2: whenever a run raises one of the four typed errors, its
category is the stated function of the status code of the final consumed
response, given by the claimed mapping (401 to AuthError, 429 to
RateLimitError, 5xx to RetryableError, any other non-2xx to ApiError); the
rate-limit and server-error categories are only raised at the retry ceiling
of exactly 6 attempts; and a final status in the catch-all class terminates
on its very first appearance with `ApiError`, with no retry and no sleep. -/
theorem spec_C2 (req : RequestDescriptor) (rs : List Response) (r : Response)
    (c : ErrCategory)
    (hlast : rs.get? ((runRequest req rs).sent.length - 1) = some r)
    (hc : errCategory (runRequest req rs).outcome = some c) :
    claimedCategory r.status = some c ∧
    ((c = ErrCategory.rateLimited ∨ c = ErrCategory.serverRetryable) →
      (runRequest req rs).sent.length = 6) ∧
    (∀ (req2 : RequestDescriptor) (r2 : Response) (rest2 : List Response),
      claimedCategory r2.status = some ErrCategory.api →
      runRequest req2 (r2 :: rest2) =
        ⟨Outcome.apiError r2.status (extractError r2).1 (extractError r2).2,
          [], [req2]⟩) := by
  have hapi : ∀ (req2 : RequestDescriptor) (r2 : Response) (rest2 : List Response),
      claimedCategory r2.status = some ErrCategory.api →
      runRequest req2 (r2 :: rest2) =
        ⟨Outcome.apiError r2.status (extractError r2).1 (extractError r2).2,
          [], [req2]⟩ := by
    intro req2 r2 rest2 hcl
    obtain ⟨g2, g401, g429, g5⟩ := claimedCategory_api_inv r2.status hcl
    exact loop_cons_done req2 0 1 r2 rest2 _ (step_api r2 (0 + 1) 1 g2 g401 g429 g5)
  have hLrw : runRequest req rs = requestLoop req 0 (backoffAt 0) rs := rfl
  rw [hLrw] at hc hlast ⊢
  have hne : (requestLoop req 0 (backoffAt 0) rs).outcome ≠
      Outcome.transportExhausted := by
    intro h
    rw [h] at hc
    cases hc
  obtain ⟨hn1, r9, hget9, hstep9⟩ := loop_done req rs 0 hne
  have hr9 : r9 = r := Option.some.inj (hget9.symm.trans hlast)
  rw [hr9] at hstep9
  rcases hstep9 with hstep9 | ⟨d, hsd, hqd, hod⟩
  · rcases step_done_inv _ _ _ _ hstep9 with ⟨hin2, hcs⟩ | ⟨hnot2, hcs⟩
    · rcases hcs with ⟨j, _, _, ho⟩ | ⟨_, ho⟩ | ⟨_, _, ho⟩ <;>
        (rw [ho] at hc; cases hc)
    · rcases hcs with ⟨h401, ho⟩ | ⟨h429, hA, ho⟩ | ⟨h429, hA, hbad, ho⟩ |
        ⟨h5a, h5b, hA, ho⟩ | ⟨g401, g429, g5, ho⟩
      · rw [ho] at hc
        simp only [errCategory, Option.some.injEq] at hc
        subst hc
        refine ⟨by simp [claimedCategory, h401], ?_, hapi⟩
        intro hcc
        rcases hcc with hcc | hcc <;> exact absurd hcc (by decide)
      · rw [ho] at hc
        simp only [errCategory, Option.some.injEq] at hc
        subst hc
        have hne401 : r.status ≠ 401 := by omega
        refine ⟨by simp [claimedCategory, hne401, h429], ?_, hapi⟩
        intro _
        have hle := loop_len req rs 0 (backoffAt 0) (by omega)
        omega
      · rw [ho] at hc
        cases hc
      · rw [ho] at hc
        simp only [errCategory, Option.some.injEq] at hc
        subst hc
        have hne401 : r.status ≠ 401 := by omega
        have hne429 : r.status ≠ 429 := by omega
        refine ⟨?_, ?_, hapi⟩
        · rw [claimedCategory, if_neg hne401, if_neg hne429, if_pos ⟨h5a, h5b⟩]
        · intro _
          have hle := loop_len req rs 0 (backoffAt 0) (by omega)
          omega
      · rw [ho] at hc
        simp only [errCategory, Option.some.injEq] at hc
        subst hc
        refine ⟨?_, ?_, hapi⟩
        · rw [claimedCategory, if_neg g401, if_neg g429, if_neg g5, if_neg hnot2]
        · intro hcc
          rcases hcc with hcc | hcc <;> exact absurd hcc (by decide)
  · rw [hod, (sleepException_none d).1] at hc
    cases hc

/-- Witness for C2 at a single 404 response with an unparseable body. -/
theorem spec_C2_witness :
    claimedCategory resp404Raw.status = some ErrCategory.api ∧
    ((ErrCategory.api = ErrCategory.rateLimited ∨
        ErrCategory.api = ErrCategory.serverRetryable) →
      (runRequest demoReq [resp404Raw]).sent.length = 6) ∧
    (∀ (req2 : RequestDescriptor) (r2 : Response) (rest2 : List Response),
      claimedCategory r2.status = some ErrCategory.api →
      runRequest req2 (r2 :: rest2) =
        ⟨Outcome.apiError r2.status (extractError r2).1 (extractError r2).2,
          [], [req2]⟩) :=
  spec_C2 demoReq [resp404Raw] resp404Raw ErrCategory.api rfl rfl

/-- Claim C6 is false as stated: for a 401 response whose body is not
parseable JSON, the resulting terminal error is an `AuthError` whose message
is the formatted string `Unauthorized: ` followed by the raw text
(`client.py` line 125), which differs from the raw response text the claim
asserts. -/
theorem spec_C6_counterexample :
    resp401.status = 401 ∧
    resp401.jsonBody = none ∧
    resp401.text = "no auth" ∧
    (runRequest demoReq [resp401]).outcome =
      Outcome.authError "Unauthorized: no auth" ∧
    ("Unauthorized: no auth" : String) ≠ "no auth" := by
  refine ⟨rfl, rfl, rfl, rfl, by decide⟩

/-- Claim C6 (amended): for every run whose final consumed response is
non-JSON (its body fails to parse), the error extraction degrades
gracefully to the raw text with no reason; every terminal `RateLimitError`,
`RetryableError` or `ApiError` of such a run carries exactly the raw
response text as message and `None` as reason, while a terminal `AuthError`
carries the prefixed string `Unauthorized: ` followed by the raw text — not
the raw text itself. -/
theorem spec_C6 (req : RequestDescriptor) (rs : List Response) (r : Response)
    (hlast : rs.get? ((runRequest req rs).sent.length - 1) = some r)
    (hj : r.jsonBody = none) :
    extractError r = (Json.str r.text, none) ∧
    (∀ s m rn,
      (runRequest req rs).outcome = Outcome.rateLimitError s m rn ∨
      (runRequest req rs).outcome = Outcome.retryableError s m rn ∨
      (runRequest req rs).outcome = Outcome.apiError s m rn →
      m = Json.str r.text ∧ rn = none) ∧
    (∀ m, (runRequest req rs).outcome = Outcome.authError m →
      m = "Unauthorized: " ++ r.text) := by
  have hext : extractError r = (Json.str r.text, none) := by
    unfold extractError
    rw [hj]
  have hLrw : runRequest req rs = requestLoop req 0 (backoffAt 0) rs := rfl
  rw [hLrw] at hlast ⊢
  refine ⟨hext, ?_, ?_⟩
  · intro s m rn hm
    have hne : (requestLoop req 0 (backoffAt 0) rs).outcome ≠
        Outcome.transportExhausted := by
      intro h
      rcases hm with hm | hm | hm <;> (rw [h] at hm; cases hm)
    obtain ⟨hn1, r9, hget9, hstep9⟩ := loop_done req rs 0 hne
    have hr9 : r9 = r := Option.some.inj (hget9.symm.trans hlast)
    rw [hr9] at hstep9
    rcases hstep9 with hstep9 | ⟨d, hsd, hqd, hod⟩
    · rcases step_done_inv _ _ _ _ hstep9 with ⟨_, hcs⟩ | ⟨_, hcs⟩
      · rcases hcs with ⟨j, _, _, ho⟩ | ⟨_, ho⟩ | ⟨_, _, ho⟩ <;>
          (rcases hm with hm | hm | hm <;> (rw [ho] at hm; cases hm))
      · rcases hcs with ⟨_, ho⟩ | ⟨_, _, ho⟩ | ⟨_, _, _, ho⟩ | ⟨_, _, _, ho⟩ |
          ⟨_, _, _, ho⟩ <;>
          (rcases hm with hm | hm | hm <;> (rw [ho] at hm; cases hm)) <;>
          (rw [hext]; exact ⟨rfl, rfl⟩)
    · rcases hm with hm | hm | hm <;>
        (rw [hod] at hm;
         have h1 := (sleepException_none d).1;
         rw [hm] at h1;
         simp [errCategory] at h1)
  · intro m hm
    have hne : (requestLoop req 0 (backoffAt 0) rs).outcome ≠
        Outcome.transportExhausted := by
      intro h
      rw [h] at hm
      cases hm
    obtain ⟨hn1, r9, hget9, hstep9⟩ := loop_done req rs 0 hne
    have hr9 : r9 = r := Option.some.inj (hget9.symm.trans hlast)
    rw [hr9] at hstep9
    rcases hstep9 with hstep9 | ⟨d, hsd, hqd, hod⟩
    · rcases step_done_inv _ _ _ _ hstep9 with ⟨_, hcs⟩ | ⟨_, hcs⟩
      · rcases hcs with ⟨j, _, _, ho⟩ | ⟨_, ho⟩ | ⟨_, _, ho⟩ <;>
          (rw [ho] at hm; cases hm)
      · rcases hcs with ⟨_, ho⟩ | ⟨_, _, ho⟩ | ⟨_, _, _, ho⟩ | ⟨_, _, _, ho⟩ |
          ⟨_, _, _, ho⟩ <;> rw [ho] at hm
        · cases hm
          rw [hext]
          exact rfl
        · cases hm
        · cases hm
        · cases hm
        · cases hm
    · rw [hod] at hm
      have h1 := (sleepException_none d).1
      rw [hm] at h1
      simp [errCategory] at h1

/-- Witness for C6 (amended) at a single 404 response whose body is plain
text. -/
theorem spec_C6_witness :
    extractError resp404Raw = (Json.str "not found here", none) ∧
    (∀ s m rn,
      (runRequest demoReq [resp404Raw]).outcome = Outcome.rateLimitError s m rn ∨
      (runRequest demoReq [resp404Raw]).outcome = Outcome.retryableError s m rn ∨
      (runRequest demoReq [resp404Raw]).outcome = Outcome.apiError s m rn →
      m = Json.str "not found here" ∧ rn = none) ∧
    (∀ m, (runRequest demoReq [resp404Raw]).outcome = Outcome.authError m →
      m = "Unauthorized: " ++ "not found here") :=
  spec_C6 demoReq [resp404Raw] resp404Raw rfl rfl

/-- Claim C9 is false as stated: the terminal error of a single 401 response
is an `AuthError`, and `AuthError` subclasses the bare `GSCError` without the
status and reason attributes of `ApiError` — the raised error carries no
HTTP status code and no reason. -/
theorem spec_C9_counterexample :
    errCategory (runRequest demoReq [resp401]).outcome = some ErrCategory.auth ∧
    errStatus (runRequest demoReq [resp401]).outcome = none ∧
    errReason (runRequest demoReq [resp401]).outcome = none :=
  ⟨rfl, rfl, rfl⟩

/-- Claim C9 (amended): every terminal `RateLimitError`, `RetryableError`
and `ApiError` carries the HTTP status code, the extracted message and the
optional extracted reason of the final consumed response; a terminal
`AuthError` carries only the message string formatted from that response
(`Unauthorized: ` followed by the extracted message) — it exposes no status
and no reason attribute. -/
theorem spec_C9 (req : RequestDescriptor) (rs : List Response) (r : Response)
    (hlast : rs.get? ((runRequest req rs).sent.length - 1) = some r) :
    (∀ s m rn,
      (runRequest req rs).outcome = Outcome.rateLimitError s m rn ∨
      (runRequest req rs).outcome = Outcome.retryableError s m rn ∨
      (runRequest req rs).outcome = Outcome.apiError s m rn →
      s = r.status ∧ m = (extractError r).1 ∧ rn = (extractError r).2) ∧
    (∀ m, (runRequest req rs).outcome = Outcome.authError m →
      m = "Unauthorized: " ++ pyStr (extractError r).1 ∧
      errStatus (runRequest req rs).outcome = none ∧
      errReason (runRequest req rs).outcome = none) := by
  have hLrw : runRequest req rs = requestLoop req 0 (backoffAt 0) rs := rfl
  rw [hLrw] at hlast ⊢
  constructor
  · intro s m rn hm
    have hne : (requestLoop req 0 (backoffAt 0) rs).outcome ≠
        Outcome.transportExhausted := by
      intro h
      rcases hm with hm | hm | hm <;> (rw [h] at hm; cases hm)
    obtain ⟨hn1, r9, hget9, hstep9⟩ := loop_done req rs 0 hne
    have hr9 : r9 = r := Option.some.inj (hget9.symm.trans hlast)
    rw [hr9] at hstep9
    rcases hstep9 with hstep9 | ⟨d, hsd, hqd, hod⟩
    · rcases step_done_inv _ _ _ _ hstep9 with ⟨hin2, hcs⟩ | ⟨hnot2, hcs⟩
      · rcases hcs with ⟨j, _, _, ho⟩ | ⟨_, ho⟩ | ⟨_, _, ho⟩ <;>
          (rcases hm with hm | hm | hm <;> (rw [ho] at hm; cases hm))
      · rcases hcs with ⟨_, ho⟩ | ⟨_, _, ho⟩ | ⟨_, _, _, ho⟩ | ⟨_, _, _, ho⟩ |
          ⟨_, _, _, ho⟩ <;>
          (rcases hm with hm | hm | hm <;> (rw [ho] at hm; cases hm)) <;>
          exact ⟨rfl, rfl, rfl⟩
    · rcases hm with hm | hm | hm <;>
        (rw [hod] at hm;
         have h1 := (sleepException_none d).1;
         rw [hm] at h1;
         simp [errCategory] at h1)
  · intro m hm
    have hne : (requestLoop req 0 (backoffAt 0) rs).outcome ≠
        Outcome.transportExhausted := by
      intro h
      rw [h] at hm
      cases hm
    obtain ⟨hn1, r9, hget9, hstep9⟩ := loop_done req rs 0 hne
    have hr9 : r9 = r := Option.some.inj (hget9.symm.trans hlast)
    rw [hr9] at hstep9
    rcases hstep9 with hstep9 | ⟨d, hsd, hqd, hod⟩
    · rcases step_done_inv _ _ _ _ hstep9 with ⟨hin2, hcs⟩ | ⟨hnot2, hcs⟩
      · rcases hcs with ⟨j, _, _, ho⟩ | ⟨_, ho⟩ | ⟨_, _, ho⟩ <;>
          (rw [ho] at hm; cases hm)
      · rcases hcs with ⟨_, ho⟩ | ⟨_, _, ho⟩ | ⟨_, _, _, ho⟩ | ⟨_, _, _, ho⟩ |
          ⟨_, _, _, ho⟩ <;> rw [ho] at hm ⊢
        · cases hm
          exact ⟨rfl, rfl, rfl⟩
        · cases hm
        · cases hm
        · cases hm
        · cases hm
    · rw [hod] at hm
      have h1 := (sleepException_none d).1
      rw [hm] at h1
      simp [errCategory] at h1

/-- Witness for C9 (amended) at a single 404 response. -/
theorem spec_C9_witness :
    (∀ s m rn,
      (runRequest demoReq [resp404Raw]).outcome = Outcome.rateLimitError s m rn ∨
      (runRequest demoReq [resp404Raw]).outcome = Outcome.retryableError s m rn ∨
      (runRequest demoReq [resp404Raw]).outcome = Outcome.apiError s m rn →
      s = resp404Raw.status ∧ m = (extractError resp404Raw).1 ∧
        rn = (extractError resp404Raw).2) ∧
    (∀ m, (runRequest demoReq [resp404Raw]).outcome = Outcome.authError m →
      m = "Unauthorized: " ++ pyStr (extractError resp404Raw).1 ∧
      errStatus (runRequest demoReq [resp404Raw]).outcome = none ∧
      errReason (runRequest demoReq [resp404Raw]).outcome = none) :=
  spec_C9 demoReq [resp404Raw] resp404Raw rfl
